import Mathlib

/-
Verification development for the sales-forecast-app repository.

Part 1 models the Streamlit-side training workflow exactly as written in
src/components/ml_studio.py together with the method surface of the
BackendClient class in src/backend_integration.py.  Python's dynamic
attribute lookup is embedded explicitly: calling a method that the class
does not define raises AttributeError, which the surrounding exception
handlers of the source convert into user-visible error messages.

Part 2 models the forecasting core (DataFrameIngestor and the four
forecast strategies).  That code is described by the specification but is
not present under src/, so those definitions are modelled from the spec
and say so in their doc comments.
-/

namespace SalesForecast

/-- Method names defined by the class BackendClient in
src/backend_integration.py (lines 25-155).  The class defines exactly
these methods; in particular it defines none of upload_data,
train_forecast, get_job_status, get_forecast. -/
def backendClientMethods : List String :=
  ["__init__", "_get_auth_headers", "_handle_response", "health_check",
   "login", "get_current_user", "get_datasets", "get_ml_models",
   "get_dashboards", "get_metrics"]

/-- Python truthiness of the token value obtained from
st.session_state.get  access_token  : None and the empty string are
falsy, any other string is truthy (ml_studio.py line 186-187). -/
def tokenTruthy : Option String → Bool
  | none => false
  | some t => !t.isEmpty

/-- The four fixed metric strings displayed by simulate_training
(ml_studio.py lines 394-402). -/
structure MockMetrics where
  r2 : String
  mae : String
  rmse : String
  mape : String
deriving DecidableEq, Repr

/-- The constant metrics shown by simulate_training. -/
def mockMetrics : MockMetrics :=
  { r2 := "0.8542", mae := "12.34", rmse := "18.67", mape := "8.3%" }

/-- Observable effects of simulate_training (ml_studio.py lines 371-402):
it announces simulation mode, shows a simulated-success message, and
displays the fixed mock metrics. -/
structure SimResult where
  announcedSimulation : Bool
  successShown : Bool
  metricsShown : MockMetrics
deriving DecidableEq, Repr

/-- Embedding of simulate_training: st.info announces simulation mode,
st.success reports completion "(Simulated)", and the four constant mock
metrics are displayed. -/
def simulateTraining : SimResult :=
  { announcedSimulation := true, successShown := true, metricsShown := mockMetrics }

/-- The training configuration dict built in train_forecast_model
(ml_studio.py lines 210-218). -/
structure TrainingConfig where
  dataset_id : String
  date_column : String
  value_column : String
  model_type : String
  forecast_periods : Nat
  seasonality_mode : String
  include_holidays : Bool
deriving DecidableEq, Repr

/-- Construction of the config dict exactly as in the source: model_type
is the literal "prophet" and include_holidays is the checkbox value. -/
def mkTrainingConfig (datasetId dateColumn valueColumn : String)
    (forecastPeriods : Nat) (seasonalityMode : String)
    (includeHolidays : Bool) : TrainingConfig :=
  { dataset_id := datasetId
    date_column := dateColumn
    value_column := valueColumn
    model_type := "prophet"
    forecast_periods := forecastPeriods
    seasonality_mode := seasonalityMode
    include_holidays := includeHolidays }

/-- Default of the "Include US Holidays" checkbox: value=False
(ml_studio.py lines 113-117). -/
def includeHolidaysDefault : Bool := false

/-- The forecast-periods slider (ml_studio.py lines 97-103) constrains its
value to the range 7..365, so the UI can never produce a horizon of 0. -/
def forecastPeriodsSlider (v : Nat) : Nat := max 7 (min 365 v)

/-- Fields of the job-status dict consulted by the polling loop
(ml_studio.py lines 237-301).  Option models key presence: the source
reads the error key with a containment test, the status key with plain
indexing (KeyError when absent), progress with .get and default 0, and
model_id with plain indexing. -/
structure StatusData where
  error : Option String
  status : Option String
  progress : Nat
  model_id : Option String
deriving DecidableEq, Repr

/-- max_wait = 120 seconds (ml_studio.py line 232). -/
def maxWait : Nat := 120

/-- poll_interval = 2 seconds (ml_studio.py line 233). -/
def pollInterval : Nat := 2

/-- Ways the polling loop of train_forecast_model can end. -/
inductive PollOutcome where
  | statusError (msg : String)
  | completed (modelId : String)
  | keyError (key : String)
  | trainingFailed (msg : String)
  | timedOut
deriving DecidableEq, Repr

/-- Embedding of the while-loop of train_forecast_model (ml_studio.py
lines 236-303).  elapsed models wall-clock seconds since start_time;
statuses k is the dict returned by the k-th status query, and delays k
is any extra time that query consumes beyond the mandatory 2-second
sleep.  The returned Nat counts status queries performed.  A KeyError on
the status or model_id key escapes the loop to the enclosing except
handler of the source, modelled by the keyError outcome. -/
def pollLoop (statuses : Nat → StatusData) (delays : Nat → Nat)
    (elapsed : Nat) (k : Nat) : PollOutcome × Nat :=
  if h : elapsed < maxWait then
    let sd := statuses k
    match sd.error with
    | some e => (.statusError e, 1)
    | none =>
      match sd.status with
      | none => (.keyError "status", 1)
      | some s =>
        if s = "completed" then
          match sd.model_id with
          | none => (.keyError "model_id", 1)
          | some m => (.completed m, 1)
        else if s = "failed" then
          (.trainingFailed (sd.error.getD "Unknown error"), 1)
        else
          let r := pollLoop statuses delays (elapsed + pollInterval + delays k) (k + 1)
          (r.1, r.2 + 1)
  else (.timedOut, 0)
termination_by maxWait - elapsed
decreasing_by
  simp only [pollInterval] at *
  omega

/-- Hypothetical responses of the backend, used only on the branches of
train_forecast_model that a client possessing the missing methods would
reach.  Option String fields model dict keys as in StatusData. -/
structure UploadResp where
  error : Option String
  dataset_id : Option String
deriving DecidableEq, Repr

/-- Hypothetical response to the train_forecast call. -/
structure TrainResp where
  error : Option String
  job_id : Option String
deriving DecidableEq, Repr

/-- A backend world: responses to the upload and train calls plus the
stream of job-status responses and per-query time overheads. -/
structure Backend where
  upload : UploadResp
  train : TrainResp
  statuses : Nat → StatusData
  delays : Nat → Nat

/-- A backend world whose responses carry no data at all. -/
def trivialBackend : Backend :=
  { upload := { error := none, dataset_id := none }
    train := { error := none, job_id := none }
    statuses := fun _ => { error := none, status := none, progress := 0, model_id := none }
    delays := fun _ => 0 }

/-- User-visible outcome of one run of train_forecast_model. -/
inductive TrainOutcome where
  | simulated
  | uploadException (msg : String)
  | uploadFailed (msg : String)
  | trainingException (msg : String)
  | trainingFailedStart (msg : String)
  | pollEnded (o : PollOutcome)
deriving DecidableEq, Repr

/-- Result record of a run of train_forecast_model: the outcome shown to
the user, whether a train_forecast request was ever issued, and how many
status polls happened. -/
structure TrainRun where
  outcome : TrainOutcome
  trainingRequested : Bool
  polls : Nat
deriving DecidableEq, Repr

/-- Embedding of train_forecast_model (ml_studio.py lines 178-306),
parametric in the method table of the client object and in the backend
world.  The source first checks the token (falsy token: warn and run
simulate_training, then return).  It then evaluates client.upload_data:
if the method table lacks upload_data this raises AttributeError, caught
by the first except handler which shows an upload-error message and
returns.  On the hypothetical success path the source checks the error
key, reads dataset_id (KeyError caught by the same handler), builds the
config, evaluates client.train_forecast (again AttributeError when
absent, caught by the second handler), checks the error key, reads
job_id, and enters the polling loop, whose get_job_status lookup also
raises AttributeError when absent.  A keyError escaping the loop is
caught by the second handler as well. -/
def trainForecastModel (methods : List String) (b : Backend)
    (token : Option String) : TrainRun :=
  if tokenTruthy token = false then
    { outcome := .simulated, trainingRequested := false, polls := 0 }
  else
    if methods.contains "upload_data" = false then
      { outcome := .uploadException "AttributeError: upload_data"
        trainingRequested := false, polls := 0 }
    else
      match b.upload.error with
      | some e =>
        { outcome := .uploadFailed e, trainingRequested := false, polls := 0 }
      | none =>
        match b.upload.dataset_id with
        | none =>
          { outcome := .uploadException "KeyError: dataset_id"
            trainingRequested := false, polls := 0 }
        | some _ =>
          if methods.contains "train_forecast" = false then
            { outcome := .trainingException "AttributeError: train_forecast"
              trainingRequested := false, polls := 0 }
          else
            match b.train.error with
            | some e =>
              { outcome := .trainingFailedStart e, trainingRequested := true, polls := 0 }
            | none =>
              match b.train.job_id with
              | none =>
                { outcome := .trainingException "KeyError: job_id"
                  trainingRequested := true, polls := 0 }
              | some _ =>
                if methods.contains "get_job_status" = false then
                  { outcome := .trainingException "AttributeError: get_job_status"
                    trainingRequested := true, polls := 0 }
                else
                  let r := pollLoop b.statuses b.delays 0 0
                  { outcome :=
                      match r.1 with
                      | .keyError key => .trainingException ("KeyError: " ++ key)
                      | o => .pollEnded o
                    trainingRequested := true
                    polls := r.2 }

/-- Keys of the forecast-response dict read by
show_forecast_visualization (ml_studio.py lines 313-320). -/
structure ForecastResp where
  error : Option String
  forecast_dates : Option (List String)
  forecast_values : Option (List Int)
  lower_bound : Option (List Int)
  upper_bound : Option (List Int)
deriving DecidableEq, Repr

/-- User-visible outcome of show_forecast_visualization. -/
inductive VisOutcome where
  | chartShown (dates : List String) (values lower upper : List Int)
  | failedMessage (msg : String)
  | exceptionCaught (msg : String)
deriving DecidableEq, Repr

/-- Local names bound in the body of show_forecast_visualization
(ml_studio.py lines 309-362): the name  response  used on line 365 is
not among them, so evaluating the f-string of that st.error call raises
NameError. -/
def visualizationLocalNames : List String :=
  ["model_id", "periods", "client", "forecast_data", "dates", "values",
   "lower", "upper", "fig", "forecast_df"]

/-- Embedding of show_forecast_visualization (ml_studio.py lines
309-368), parametric in the client method table and the hypothetical
forecast response.  client.get_forecast raises AttributeError when the
method is absent; the whole body is wrapped in try/except whose handler
shows an error message, modelled by exceptionCaught.  When the response
dict contains the error key, the else branch's st.error call evaluates
the undefined name  response  and raises NameError, again caught by the
handler, so the intended failedMessage is never shown. -/
def showForecastVisualization (methods : List String)
    (resp : ForecastResp) : VisOutcome :=
  if methods.contains "get_forecast" = false then
    .exceptionCaught "AttributeError: get_forecast"
  else
    match resp.error with
    | none =>
      match resp.forecast_dates, resp.forecast_values, resp.lower_bound, resp.upper_bound with
      | some d, some v, some l, some u => .chartShown d v l u
      | _, _, _, _ => .exceptionCaught "KeyError"
    | some _ =>
      if visualizationLocalNames.contains "response" then
        .failedMessage "Failed to get forecast"
      else
        .exceptionCaught "NameError: response"

/-
Part 2: the forecasting core.  The specification (sections 2-4) describes
a DataFrameIngestor and four forecast strategies living in app.py
variants; that code is not present under src/ (the src app.py variants
contain only UI shells), so the definitions below are modelled from the
spec, as their doc comments state.
-/

/-- A calendar date as parsed from the date column. -/
structure Date where
  year : Nat
  month : Nat
  day : Nat
deriving DecidableEq, Repr

/-- Lexicographic year-month-day order on dates. -/
def Date.le (a b : Date) : Prop :=
  a.year < b.year ∨
    (a.year = b.year ∧
      (a.month < b.month ∨ (a.month = b.month ∧ a.day ≤ b.day)))

instance (a b : Date) : Decidable (Date.le a b) :=
  inferInstanceAs (Decidable (_ ∨ _))

/-- Row order used to sort the cleaned table ascending by date. -/
def dleRow (p q : Date × Int) : Prop := Date.le p.1 q.1

instance : DecidableRel dleRow :=
  fun p q => inferInstanceAs (Decidable (Date.le p.1 q.1))

instance : IsTotal (Date × Int) dleRow :=
  ⟨by intro a b; simp only [dleRow, Date.le]; omega⟩

instance : IsTrans (Date × Int) dleRow :=
  ⟨by intro a b c; simp only [dleRow, Date.le]; omega⟩

/-- A day-of-month field must lie in 1..31. -/
def validDay (d : Nat) : Bool := decide (1 ≤ d ∧ d ≤ 31)

/-- A month field must lie in 1..12. -/
def validMonth (m : Nat) : Bool := decide (1 ≤ m ∧ m ≤ 12)

/-- Raw content of one date cell before parsing: a numeric a/b/y text, a
value that is already a datetime, or unparseable text. -/
inductive RawDate where
  | numeric (a b y : Nat)
  | alreadyDate (d : Date)
  | malformed
deriving DecidableEq, Repr

/-- Modelled from the spec (section 4.1, DataFrameIngestor, missing from
src/): parses the date column as day-first datetime, tolerant of mixed
formats; an ambiguous a/b/y entry is read with the first field as the
day, falling back to month-first only when the day-first reading is
impossible; malformed entries become missing (none) rather than
raising; an already-datetime value passes through unchanged. -/
def parseDayFirst : RawDate → Option Date
  | .numeric a b y =>
    if validDay a && validMonth b then some { year := y, month := b, day := a }
    else if validMonth a && validDay b then some { year := y, month := a, day := b }
    else none
  | .alreadyDate d => some d
  | .malformed => none

/-- One row of the raw table: a date cell and an optional numeric target
value (none models a missing or non-numeric target). -/
structure Row where
  date : RawDate
  value : Option Int
deriving DecidableEq, Repr

/-- Modelled from the spec (section 4.1): drop any row missing either the
parsed date or the target value; the survivors keep their (parsed date,
value) pair. -/
def cleanRows (tbl : List Row) : List (Date × Int) :=
  tbl.filterMap fun r =>
    match parseDayFirst r.date, r.value with
    | some d, some v => some (d, v)
    | _, _ => none

/-- Modelled from the spec (section 4.1): sort ascending by date. -/
def sortByDate (l : List (Date × Int)) : List (Date × Int) :=
  List.insertionSort dleRow l

/-- Error taxonomy of ingestion (spec section 7). -/
inductive IngestError where
  | dataValidationError
deriving DecidableEq, Repr

/-- Modelled from the spec (section 4.1, DataFrameIngestor contract,
missing from src/): parse the date column day-first, drop rows missing
the parsed date or the target, sort ascending by date; signal
DataValidationError when zero rows remain after dropping. -/
def ingest (tbl : List Row) : Except IngestError (List (Date × Int)) :=
  if (cleanRows tbl).isEmpty then .error .dataValidationError
  else .ok (sortByDate (cleanRows tbl))

/-- View of an already-cleaned series as a raw table: the date column
holds datetime values, the target column is fully populated.  Used to
state ingestion idempotence. -/
def toRaw (ts : List (Date × Int)) : List Row :=
  ts.map fun p => { date := .alreadyDate p.1, value := some p.2 }

/-- Modelled from the spec (section 3): timestamps of the forecast index,
starting immediately after the last observed timestamp and spaced at the
inferred frequency. -/
def futureIndex (lastTs freq h : Nat) : List Nat :=
  (List.range h).map fun i => lastTs + (i + 1) * freq

/-- Last timestamp of a series (0 for the empty series). -/
def lastTimestamp (s : List (Nat × Int)) : Nat :=
  ((s.map Prod.fst).getLast?).getD 0

/-- Gaps between consecutive timestamps. -/
def consecutiveDiffs : List Nat → List Nat
  | a :: b :: t => (b - a) :: consecutiveDiffs (b :: t)
  | _ => []

/-- Modelled from the spec (sections 4.1 and glossary): infer the
sampling frequency from the sorted index; inference succeeds only for a
regular index with a nonzero spacing, otherwise it fails and the caller
falls back to the documented default. -/
def inferFreq (idx : List Nat) : Option Nat :=
  match consecutiveDiffs idx with
  | [] => none
  | d :: ds => if d ≠ 0 ∧ ds.all (fun x => x = d) then some d else none

/-- Documented fallback frequency (monthly, spec section 4.1), in days. -/
def defaultFreq : Nat := 30

/-- Frequency used for the forecast index: the inferred one, or the
documented fallback when inference fails. -/
def inferredFreq (s : List (Nat × Int)) : Nat :=
  (inferFreq (s.map Prod.fst)).getD defaultFreq

/-- Strategy-level fit failure (spec section 7, ModelFitError). -/
inductive FitErr where
  | modelFit
deriving DecidableEq, Repr

/-- Modelled from the spec (section 3): the ForecastResult output
contract. -/
structure ForecastResult where
  forecast_index : List Nat
  forecast_values : List Int
  lower_bound : Option (List Int)
  upper_bound : Option (List Int)
deriving DecidableEq, Repr

/-- A user-supplied (p,d,q) order triple for ARIMA. -/
structure ArimaOrder where
  p : Nat
  d : Nat
  q : Nat
deriving DecidableEq, Repr

/-- Modelled from the spec (section 4.2, ARIMA strategy, missing from
src/): fit on the full series; an invalid order surfaces as a fit
failure; on success, produce point forecasts for each of the h future
periods, with native confidence bounds exposed when requested.  The
underlying statistical fit is the library call, abstracted as the fit
argument returning a per-step point forecast, and conf giving the
per-step confidence bounds of the fitted model. -/
def arimaForecast (fit : List Int → ArimaOrder → Option (Nat → Int))
    (conf : Nat → Int × Int) (withCI : Bool)
    (s : List (Nat × Int)) (order : ArimaOrder) (freq h : Nat) :
    Except FitErr ForecastResult :=
  match fit (s.map Prod.snd) order with
  | none => .error .modelFit
  | some m =>
    .ok { forecast_index := futureIndex (lastTimestamp s) freq h
          forecast_values := (List.range h).map m
          lower_bound :=
            if withCI then some ((List.range h).map fun i => (conf i).1) else none
          upper_bound :=
            if withCI then some ((List.range h).map fun i => (conf i).2) else none }

/-- Modelled from the spec (section 4.3, Prophet strategy, missing from
src/): extend the historical frame by h periods at the given frequency,
predict over the full extended range (the fitted additive model is
abstracted as a per-timestamp prediction returning yhat with its lower
and upper bounds), and slice the output to the trailing h rows. -/
def prophetForecast (predict : Nat → Int × Int × Int)
    (s : List (Nat × Int)) (freq h : Nat) : ForecastResult :=
  let histIdx := s.map Prod.fst
  let extended := histIdx ++ futureIndex (lastTimestamp s) freq h
  let rows := extended.map predict
  let tail := rows.drop (rows.length - h)
  { forecast_index := futureIndex (lastTimestamp s) freq h
    forecast_values := tail.map fun p => p.1
    lower_bound := some (tail.map fun p => p.2.1)
    upper_bound := some (tail.map fun p => p.2.2) }

/-- Modelled from the spec (section 4.4): recursive rollout of the LSTM.
Seed with the last lookback scaled values, predict one step, append the
prediction to the window dropping the oldest entry, and repeat until h
predictions are produced. -/
def lstmRollout (step : List Int → Int) : List Int → Nat → List Int
  | _, 0 => []
  | window, n + 1 =>
    let v := step window
    v :: lstmRollout step (window.drop 1 ++ [v]) n

/-- Modelled from the spec (section 4.4, LSTM strategy, missing from
src/): scale the values, seed the window with the last lookback scaled
values, roll out h one-step predictions recursively, and inverse-scale
them.  The trained network (whose weights depend on the epochs
configuration) is abstracted as the one-step predictor; no confidence
bounds are produced. -/
def lstmForecast (scale invScale : Int → Int) (step : List Int → Int)
    (s : List (Nat × Int)) (lookback epochs : Nat) (freq h : Nat) :
    ForecastResult :=
  let scaled := (s.map Prod.snd).map scale
  let window := scaled.drop (scaled.length - lookback)
  { forecast_index := futureIndex (lastTimestamp s) freq h
    forecast_values := (lstmRollout step window h).map invScale
    lower_bound := none
    upper_bound := none }

/-- Modelled from the spec (section 4.5): the supervised lag table.  Row
i has target value at time i+k and features the k preceding values;
rows with incomplete lag history are dropped, leaving length n - k. -/
def lagTable (vals : List Int) (k : Nat) : List (List Int × Int) :=
  (List.range (vals.length - k)).map fun i =>
    (((List.range k).map fun j => vals.getD (i + k - 1 - j) 0),
      vals.getD (i + k) 0)

/-- Size of the chronological test split of the lag table (the trailing
rows left after the 80 percent training split). -/
def gbmTestLen (vals : List Int) (k : Nat) : Nat :=
  let n := (lagTable vals k).length
  n - n * 8 / 10

/-- Modelled from the spec (section 4.5, Lagged-GBM strategy, missing
from src/): build the lag table, split it chronologically 80/20, train
the boosted regressor on the leading split (the trained regressor is
abstracted as reg), and use the test-split predictions directly,
truncated to h, as the forward forecast - the behavior the spec flags as
a likely correctness gap. -/
def gbmForecast (reg : List Int → Int) (s : List (Nat × Int)) (k : Nat)
    (freq h : Nat) : ForecastResult :=
  let tbl := lagTable (s.map Prod.snd) k
  let trainSize := tbl.length * 8 / 10
  let testRows := tbl.drop trainSize
  { forecast_index := futureIndex (lastTimestamp s) freq h
    forecast_values := (testRows.map fun row => reg row.1).take h
    lower_bound := none
    upper_bound := none }

/-- Modelled from the spec (section 9): the tagged union of the four
strategies, each carrying its strategy-specific parameters; the fitted
models themselves are the abstract function arguments. -/
inductive Strategy where
  | arima (fit : List Int → ArimaOrder → Option (Nat → Int))
      (conf : Nat → Int × Int) (withCI : Bool) (order : ArimaOrder)
  | prophet (predict : Nat → Int × Int × Int)
  | lstm (scale invScale : Int → Int) (step : List Int → Int)
      (lookback epochs : Nat)
  | gbm (reg : List Int → Int) (nLags : Nat)

/-- Failure of a forecast run (spec section 7). -/
inductive ForecastFailure where
  | forecastErr
  | fitFailure
deriving DecidableEq, Repr

/-- Modelled from the spec (sections 7 and 8): a forecast request with a
non-positive horizon raises ForecastError before any strategy executes;
otherwise the chosen strategy runs at the inferred frequency. -/
def runForecast (strat : Strategy) (s : List (Nat × Int)) (horizon : Nat) :
    Except ForecastFailure ForecastResult :=
  if horizon = 0 then .error .forecastErr
  else
    let freq := inferredFreq s
    match strat with
    | .arima fit conf withCI order =>
      match arimaForecast fit conf withCI s order freq horizon with
      | .error _ => .error .fitFailure
      | .ok r => .ok r
    | .prophet predict => .ok (prophetForecast predict s freq horizon)
    | .lstm sc inv st lb ep => .ok (lstmForecast sc inv st s lb ep freq horizon)
    | .gbm reg k => .ok (gbmForecast reg s k freq horizon)

/-- Failure of the whole ingestion-then-forecast pipeline. -/
inductive PipelineFailure where
  | dataValidation
  | strategyFailure
deriving DecidableEq, Repr

/-- Modelled from the spec (section 7, propagation policy): ingestion
errors abort before any strategy runs; a strategy fit error is reported
per-strategy.  The strategy is an arbitrary function of the cleaned
series, so the theorem that an ingestion error makes the result
independent of it expresses that no strategy is attempted. -/
def runIngestThenForecast {α : Type} (strat : List (Date × Int) → Except FitErr α)
    (tbl : List Row) : Except PipelineFailure α :=
  match ingest tbl with
  | .error _ => .error .dataValidation
  | .ok ts =>
    match strat ts with
    | .error _ => .error .strategyFailure
    | .ok r => .ok r

/-- Modelled from the spec (section 4.3): the Prophet model settings -
yearly seasonality enabled by default, holiday effects only on explicit
request. -/
structure ProphetSettings where
  yearly_seasonality : Bool
  holidays : Bool
deriving DecidableEq, Repr

/-- Settings handed to the Prophet constructor for a given value of the
include-holidays option. -/
def prophetSettings (includeHolidays : Bool) : ProphetSettings :=
  { yearly_seasonality := true, holidays := includeHolidays }

/-- Shape contract of a forecast result (spec sections 3 and 8): as many
values as index entries as horizon periods, the first index entry
strictly after the last observed timestamp, and consecutive index
entries spaced at the frequency. -/
def shapeInvariant (s : List (Nat × Int)) (freq h : Nat)
    (r : ForecastResult) : Prop :=
  r.forecast_values.length = h ∧
  r.forecast_index.length = h ∧
  (∀ t, r.forecast_index.head? = some t → lastTimestamp s < t) ∧
  (∀ i, i + 1 < h →
    r.forecast_index.get? (i + 1) = (r.forecast_index.get? i).map (fun x => x + freq))

/-
Theorems.  Helper lemmas come first; each claim then gets exactly one
theorem, with a witness where the theorem carries hypotheses and a
counterexample where the claim as stated fails.
-/

theorem pollLoop_polls_le (n : Nat) :
    ∀ (statuses : Nat → StatusData) (delays : Nat → Nat) (elapsed k : Nat),
      maxWait - elapsed ≤ pollInterval * n →
      (pollLoop statuses delays elapsed k).2 ≤ n := by
  induction n with
  | zero =>
    intro statuses delays elapsed k hle
    rw [pollLoop]
    have hnot : ¬ elapsed < maxWait := by
      simp only [maxWait, pollInterval] at hle ⊢; omega
    simp [hnot]
  | succ n ih =>
    intro statuses delays elapsed k hle
    rw [pollLoop]
    by_cases hlt : elapsed < maxWait
    · simp only [dif_pos hlt]
      split
      · simp
      · split
        · simp
        · split
          · split <;> simp
          · split
            · simp
            · simp only []
              have hrec := ih statuses delays (elapsed + pollInterval + delays k) (k + 1)
                (by simp only [maxWait, pollInterval] at hle ⊢; omega)
              omega
    · simp [hlt]

/-- Claim C9: the training-status polling loop of train_forecast_model
terminates on every execution: the guard bounds elapsed time by
max_wait = 120 seconds, every non-breaking iteration sleeps
poll_interval = 2 seconds (plus any query overhead), and the loop exits
early on a completed or failed status or a status-query error, so at
most 60 status polls ever occur, whatever the backend reports and
however long each query takes. -/
theorem polling_loop_bounded :
    ∀ (statuses : Nat → StatusData) (delays : Nat → Nat) (elapsed k : Nat),
      (pollLoop statuses delays elapsed k).2 ≤ 60 :=
  fun statuses delays elapsed k =>
    pollLoop_polls_le 60 statuses delays elapsed k
      (by simp only [maxWait, pollInterval]; omega)

/-- Claim C1: whenever st.session_state holds an access token, the call
client.upload_data in train_forecast_model raises AttributeError
(BackendClient defines no upload_data method, nor train_forecast,
get_job_status or get_forecast), the surrounding handler catches it and
shows the upload-error message, and the function returns without ever
issuing a training request - for every possible backend world. -/
theorem upload_attribute_error (b : Backend) (token : Option String)
    (htok : tokenTruthy token = true) :
    (trainForecastModel backendClientMethods b token).outcome
        = .uploadException "AttributeError: upload_data" ∧
    (trainForecastModel backendClientMethods b token).trainingRequested = false ∧
    (trainForecastModel backendClientMethods b token).polls = 0 ∧
    backendClientMethods.contains "upload_data" = false ∧
    backendClientMethods.contains "train_forecast" = false ∧
    backendClientMethods.contains "get_job_status" = false ∧
    backendClientMethods.contains "get_forecast" = false := by
  have hc : "upload_data" ∉ backendClientMethods := by decide
  refine ⟨?_, ?_, ?_, by decide, by decide, by decide, by decide⟩ <;>
    simp [trainForecastModel, htok, hc]

theorem upload_attribute_error_witness :
    tokenTruthy (some "demo-token") = true ∧
    (trainForecastModel backendClientMethods trivialBackend (some "demo-token")).outcome
        = .uploadException "AttributeError: upload_data" :=
  ⟨by decide, (upload_attribute_error trivialBackend (some "demo-token") (by decide)).1⟩

/-- Claim C3 counterexample: the claim says no code path replaces a
failed or unavailable training run with fabricated forecast results or
metrics, yet the run of train_forecast_model without an access token
(backend training unavailable) invokes simulate_training, which
displays the fixed fabricated metrics r2 = 0.8542, mae = 12.34,
rmse = 18.67, mape = 8.3 percent. -/
theorem simulated_metrics_counterexample :
    (trainForecastModel backendClientMethods trivialBackend none).outcome = .simulated ∧
    simulateTraining.successShown = true ∧
    simulateTraining.metricsShown = mockMetrics ∧
    mockMetrics.r2 = "0.8542" :=
  ⟨rfl, rfl, rfl, rfl⟩

/-- Claim C3 (amended): when a forecast run fails, the program surfaces a
human-readable error and never silently substitutes a default forecast;
the one path that substitutes fabricated metrics is the demo
simulation mode, entered only when no access token is present, and it
explicitly announces itself as a simulation first.  With a token
present the run always ends in the caught-exception error message and
the simulated-metrics path is unreachable. -/
theorem failures_surface_errors (b : Backend) (token : Option String)
    (htok : tokenTruthy token = true) :
    (trainForecastModel backendClientMethods b token).outcome
        = .uploadException "AttributeError: upload_data" ∧
    (trainForecastModel backendClientMethods b token).outcome ≠ .simulated ∧
    (trainForecastModel backendClientMethods b none).outcome = .simulated ∧
    simulateTraining.announcedSimulation = true := by
  have hc : "upload_data" ∉ backendClientMethods := by decide
  have h1 : (trainForecastModel backendClientMethods b token).outcome
      = .uploadException "AttributeError: upload_data" := by
    simp [trainForecastModel, htok, hc]
  refine ⟨h1, ?_, rfl, rfl⟩
  rw [h1]
  intro hcontra
  exact TrainOutcome.noConfusion hcontra

theorem failures_surface_errors_witness :
    (trainForecastModel backendClientMethods trivialBackend (some "demo-token")).outcome
        ≠ .simulated ∧
    simulateTraining.announcedSimulation = true :=
  ⟨(failures_surface_errors trivialBackend (some "demo-token") (by decide)).2.1,
   (failures_surface_errors trivialBackend (some "demo-token") (by decide)).2.2.2⟩

/-- Claim C6: a forecast request with horizon 0 raises ForecastError
before any strategy executes - the result is the same error for every
strategy and series, so no model fitting or prediction occurs; moreover
the UI slider that produces the horizon is clamped to 7..365 and can
never emit 0. -/
theorem horizon_zero_forecast_error :
    (∀ (strat : Strategy) (s : List (Nat × Int)),
        runForecast strat s 0 = .error .forecastErr) ∧
    (∀ v, 7 ≤ forecastPeriodsSlider v ∧ forecastPeriodsSlider v ≤ 365) := by
  constructor
  · intro strat s
    simp [runForecast]
  · intro v
    constructor <;> simp [forecastPeriodsSlider]

/-- Claim C7: the training configuration built for a Prophet model with
the advanced option left at its default carries
include_holidays = false and model_type = "prophet", and the Prophet
strategy settings enable yearly seasonality by default with no holiday
effects unless explicitly requested. -/
theorem prophet_default_config (datasetId dateColumn valueColumn : String)
    (periods : Nat) (seasonalityMode : String) :
    (mkTrainingConfig datasetId dateColumn valueColumn periods seasonalityMode
        includeHolidaysDefault).include_holidays = false ∧
    (mkTrainingConfig datasetId dateColumn valueColumn periods seasonalityMode
        includeHolidaysDefault).model_type = "prophet" ∧
    (prophetSettings includeHolidaysDefault).yearly_seasonality = true ∧
    (prophetSettings includeHolidaysDefault).holidays = false :=
  ⟨rfl, rfl, rfl, rfl⟩

/-- Claim C8: every call of show_forecast_visualization fails before
rendering a chart: with the actual BackendClient method table the
get_forecast lookup raises AttributeError, caught by the enclosing
handler, so the chart and data-table branches are unreachable for every
response; and even for a hypothetical client possessing get_forecast,
a response containing the error key sends the else branch into a
NameError on the undefined name response, again caught by the handler,
so the intended failure message is never shown either. -/
theorem visualization_always_fails (resp : ForecastResp) :
    showForecastVisualization backendClientMethods resp
        = .exceptionCaught "AttributeError: get_forecast" ∧
    (∀ d v l u, showForecastVisualization backendClientMethods resp
        ≠ .chartShown d v l u) ∧
    (∀ (methods : List String) (e : String),
        methods.contains "get_forecast" = true → resp.error = some e →
        showForecastVisualization methods resp
          = .exceptionCaught "NameError: response") := by
  have hc : "get_forecast" ∉ backendClientMethods := by decide
  have hmain : showForecastVisualization backendClientMethods resp
      = .exceptionCaught "AttributeError: get_forecast" := by
    simp [showForecastVisualization, hc]
  refine ⟨hmain, ?_, ?_⟩
  · intro d v l u
    rw [hmain]
    intro hcontra
    exact VisOutcome.noConfusion hcontra
  · intro methods e hm he
    have hm' : "get_forecast" ∈ methods := by simpa using hm
    have hr : "response" ∉ visualizationLocalNames := by decide
    simp [showForecastVisualization, hm', he, hr]

theorem visualization_always_fails_witness :
    showForecastVisualization ["get_forecast"]
        { error := some "boom", forecast_dates := none, forecast_values := none,
          lower_bound := none, upper_bound := none }
        = .exceptionCaught "NameError: response" :=
  (visualization_always_fails
      { error := some "boom", forecast_dates := none, forecast_values := none,
        lower_bound := none, upper_bound := none }).2.2
    ["get_forecast"] "boom" (by decide) rfl

/-- Claim C4: ingestion parses the date column day-first - at an
ambiguous a/b/y entry whose first field is a valid day and second a
valid month, the first field becomes the day; a malformed entry
becomes missing rather than raising (the parse is total into Option);
and cleaning drops exactly the rows missing the parsed date or the
target value, keeping a row count equal to the number of rows with
both present. -/
theorem ingestion_dayfirst_drops :
    (∀ a b y, validDay a = true → validMonth b = true →
        parseDayFirst (.numeric a b y) = some { year := y, month := b, day := a }) ∧
    (parseDayFirst .malformed = none) ∧
    (∀ tbl : List Row, (cleanRows tbl).length
        = tbl.countP fun r => (parseDayFirst r.date).isSome && r.value.isSome) := by
  refine ⟨?_, rfl, ?_⟩
  · intro a b y h1 h2
    simp [parseDayFirst, h1, h2]
  · intro tbl
    induction tbl with
    | nil => rfl
    | cons r t ih =>
      simp only [cleanRows, List.filterMap_cons, List.countP_cons] at *
      cases hd : parseDayFirst r.date with
      | none => simp [hd, ih]
      | some d =>
        cases hv : r.value with
        | none => simp [hd, hv, ih]
        | some v => simp [hd, hv, ih]

theorem ingestion_dayfirst_drops_witness :
    parseDayFirst (.numeric 3 4 2023) = some { year := 2023, month := 4, day := 3 } :=
  ingestion_dayfirst_drops.1 3 4 2023 (by decide) (by decide)

/-- A raw table whose cleaning leaves exactly two rows. -/
def twoRowTable : List Row :=
  [{ date := .numeric 1 1 2023, value := some 100 },
   { date := .numeric 2 1 2023, value := some 102 }]

/-- Claim C5 counterexample: the claim also demands a DataValidationError
for a series with only 2 rows after cleaning, but the ingest contract
signals the error only when zero rows remain - a table cleaning to
exactly 2 rows is ingested successfully. -/
theorem two_row_table_counterexample :
    (cleanRows twoRowTable).length = 2 ∧
    ingest twoRowTable
      = .ok [({ year := 2023, month := 1, day := 1 }, 100),
             ({ year := 2023, month := 1, day := 2 }, 102)] :=
  ⟨rfl, rfl⟩

/-- Claim C5 (amended): if zero rows remain after dropping rows with
missing date or target, ingestion signals DataValidationError and no
forecast strategy is attempted on that input - the pipeline result is
the same error for every strategy.  (The spec's additional 2-row
scenario does not hold of the ingest contract; see the
counterexample.) -/
theorem zero_rows_abort (tbl : List Row) (h : cleanRows tbl = []) :
    ingest tbl = .error .dataValidationError ∧
    ∀ (α : Type) (strat : List (Date × Int) → Except FitErr α),
      runIngestThenForecast strat tbl = .error .dataValidation := by
  have hi : ingest tbl = .error .dataValidationError := by
    simp [ingest, h]
  refine ⟨hi, fun α strat => ?_⟩
  simp [runIngestThenForecast, hi]

/-- A raw table with one malformed date and one missing target: cleaning
leaves zero rows. -/
def allMalformedTable : List Row :=
  [{ date := .malformed, value := some 1 },
   { date := .numeric 1 1 2024, value := none }]

theorem zero_rows_abort_witness :
    ingest allMalformedTable = .error .dataValidationError :=
  (zero_rows_abort allMalformedTable rfl).1

theorem cleanRows_toRaw (ts : List (Date × Int)) : cleanRows (toRaw ts) = ts := by
  induction ts with
  | nil => rfl
  | cons p t ih =>
    have hstep : cleanRows (toRaw (p :: t)) = p :: cleanRows (toRaw t) := rfl
    rw [hstep, ih]

/-- Claim C10: ingestion is idempotent - re-ingesting the already-cleaned
output of ingest succeeds and returns the identical series: no further
rows are dropped, no reordering happens, and timestamps and values are
unchanged. -/
theorem ingestion_idempotent (tbl : List Row) (ts : List (Date × Int))
    (h : ingest tbl = .ok ts) : ingest (toRaw ts) = .ok ts := by
  rw [ingest] at h
  by_cases he : (cleanRows tbl).isEmpty = true
  · rw [if_pos he] at h
    exact absurd h (by simp)
  · rw [if_neg he] at h
    have hts : sortByDate (cleanRows tbl) = ts := by
      simpa using h
    have hsorted : List.Sorted dleRow ts := by
      rw [← hts]
      exact List.sorted_insertionSort dleRow (cleanRows tbl)
    have hlen : ts.length = (cleanRows tbl).length := by
      rw [← hts]
      exact (List.perm_insertionSort dleRow (cleanRows tbl)).length_eq
    have hne : ts.isEmpty = false := by
      cases hts' : ts with
      | nil =>
        exfalso
        apply he
        rw [hts'] at hlen
        simp only [List.length_nil] at hlen
        simp [List.length_eq_zero.mp hlen.symm]
      | cons a l => rfl
    rw [ingest, cleanRows_toRaw, hne]
    simp [sortByDate, hsorted.insertionSort_eq]

theorem ingestion_idempotent_witness :
    ingest (toRaw [({ year := 2023, month := 1, day := 1 }, 100),
                   ({ year := 2023, month := 1, day := 2 }, 102)])
      = .ok [({ year := 2023, month := 1, day := 1 }, 100),
             ({ year := 2023, month := 1, day := 2 }, 102)] :=
  ingestion_idempotent twoRowTable _ rfl

theorem futureIndex_length (l f h : Nat) : (futureIndex l f h).length = h := by
  simp [futureIndex]

theorem futureIndex_get? (l f h i : Nat) (hi : i < h) :
    (futureIndex l f h).get? i = some (l + (i + 1) * f) := by
  rw [futureIndex, List.get?_eq_getElem?, List.getElem?_map, List.getElem?_range hi]
  rfl

theorem shapeInvariant_of_futureIndex (s : List (Nat × Int)) (freq h : Nat)
    (hf : 0 < freq) (r : ForecastResult)
    (hidx : r.forecast_index = futureIndex (lastTimestamp s) freq h)
    (hval : r.forecast_values.length = h) :
    shapeInvariant s freq h r := by
  refine ⟨hval, by rw [hidx]; exact futureIndex_length _ _ _, ?_, ?_⟩
  · intro t ht
    rw [hidx] at ht
    cases h with
    | zero => simp [futureIndex] at ht
    | succ n =>
      rw [← List.get?_zero, futureIndex_get? _ _ _ 0 (Nat.succ_pos n)] at ht
      have hte : t = lastTimestamp s + 1 * freq := by
        exact (Option.some.inj ht).symm
      omega
  · intro i hi
    rw [hidx, futureIndex_get? _ _ _ (i + 1) hi, futureIndex_get? _ _ _ i (by omega)]
    simp only [Option.map_some']
    congr 1
    ring

theorem lstmRollout_length (step : List Int → Int) :
    ∀ (window : List Int) (n : Nat), (lstmRollout step window n).length = n := by
  intro window n
  induction n generalizing window with
  | zero => rfl
  | succ n ih => simp [lstmRollout, ih]

theorem inferFreq_pos_of_some (idx : List Nat) (d : Nat)
    (h : inferFreq idx = some d) : 0 < d := by
  rw [inferFreq] at h
  split at h
  · exact absurd h (by simp)
  · split at h
    · next hcond =>
      have hd := Option.some.inj h
      omega
    · exact absurd h (by simp)

theorem inferredFreq_pos (s : List (Nat × Int)) : 0 < inferredFreq s := by
  rw [inferredFreq]
  cases hc : inferFreq (s.map Prod.fst) with
  | none => simp [defaultFreq]
  | some d =>
    simp only [Option.getD_some]
    exact inferFreq_pos_of_some _ d hc

theorem prophetForecast_values_length (predict : Nat → Int × Int × Int)
    (s : List (Nat × Int)) (freq h : Nat) :
    (prophetForecast predict s freq h).forecast_values.length = h := by
  simp only [prophetForecast, List.length_map, List.length_drop,
    List.length_append, futureIndex_length]
  omega

/-- Claim C2 (amended): for every successful ARIMA, Prophet or LSTM
forecast with positive horizon, the result has exactly horizon values
and horizon index entries, the first index entry strictly after the
last input timestamp and consecutive entries spaced at the inferred
frequency.  The LaggedGBM strategy keeps the horizon-length index but
its forecast values are the chronological test-split predictions
truncated to the horizon, so their count is min(horizon, test-split
size) - the shortcut the spec flags as a likely correctness gap. -/
theorem forecast_shape_amended (s : List (Nat × Int)) (h : Nat) (hh : 0 < h) :
    (∀ fit conf withCI order r,
        runForecast (.arima fit conf withCI order) s h = .ok r →
        shapeInvariant s (inferredFreq s) h r) ∧
    (∀ predict r,
        runForecast (.prophet predict) s h = .ok r →
        shapeInvariant s (inferredFreq s) h r) ∧
    (∀ scale invScale step lookback epochs r,
        runForecast (.lstm scale invScale step lookback epochs) s h = .ok r →
        shapeInvariant s (inferredFreq s) h r) ∧
    (∀ reg k r,
        runForecast (.gbm reg k) s h = .ok r →
        r.forecast_index = futureIndex (lastTimestamp s) (inferredFreq s) h ∧
        r.forecast_values.length = min h (gbmTestLen (s.map Prod.snd) k)) := by
  have h0 : ¬ (h = 0) := by omega
  have hf := inferredFreq_pos s
  refine ⟨?_, ?_, ?_, ?_⟩
  · intro fit conf withCI order r hr
    simp only [runForecast, if_neg h0, arimaForecast] at hr
    cases hfit : fit (s.map Prod.snd) order with
    | none => rw [hfit] at hr; exact absurd hr (by simp)
    | some m =>
      rw [hfit] at hr
      simp only [Except.ok.injEq] at hr
      exact shapeInvariant_of_futureIndex s _ h hf r (by rw [← hr])
        (by rw [← hr]; simp)
  · intro predict r hr
    simp only [runForecast, if_neg h0, Except.ok.injEq] at hr
    exact shapeInvariant_of_futureIndex s _ h hf r (by rw [← hr]; rfl)
      (by rw [← hr]; exact prophetForecast_values_length _ _ _ _)
  · intro scale invScale step lookback epochs r hr
    simp only [runForecast, if_neg h0, Except.ok.injEq] at hr
    exact shapeInvariant_of_futureIndex s _ h hf r (by rw [← hr]; rfl)
      (by rw [← hr]; simp [lstmForecast, lstmRollout_length])
  · intro reg k r hr
    simp only [runForecast, if_neg h0, Except.ok.injEq] at hr
    constructor
    · rw [← hr]
      rfl
    · rw [← hr]
      simp only [gbmForecast, gbmTestLen, List.length_take, List.length_map,
        List.length_drop]

/-- A regular three-point series used to exercise the shape theorem. -/
def sampleSeries : List (Nat × Int) := [(1, 10), (2, 12), (3, 11)]

/-- A concrete stand-in for a fitted Prophet model. -/
def sampleProphetModel : Nat → Int × Int × Int :=
  fun t => ((t : Int), (t : Int) - 1, (t : Int) + 1)

theorem forecast_shape_amended_witness :
    shapeInvariant sampleSeries (inferredFreq sampleSeries) 2
      (prophetForecast sampleProphetModel sampleSeries (inferredFreq sampleSeries) 2) :=
  (forecast_shape_amended sampleSeries 2 (by decide)).2.1 sampleProphetModel
    (prophetForecast sampleProphetModel sampleSeries (inferredFreq sampleSeries) 2) rfl

/-- A regular twelve-point series for the LaggedGBM counterexample. -/
def gbmSeries : List (Nat × Int) :=
  [(1, 100), (2, 101), (3, 102), (4, 103), (5, 104), (6, 105),
   (7, 106), (8, 107), (9, 108), (10, 109), (11, 110), (12, 111)]

/-- Claim C2 counterexample: with the LaggedGBM strategy on a 12-point
series with 2 lags and horizon 6, the run succeeds but returns only 2
forecast values (the whole test split) instead of the 6 the claim
demands. -/
theorem gbm_truncation_counterexample :
    runForecast (.gbm (fun _ => 0) 2) gbmSeries 6
      = .ok (gbmForecast (fun _ => 0) gbmSeries 2 1 6) ∧
    (gbmForecast (fun _ => 0) gbmSeries 2 1 6).forecast_values.length = 2 ∧
    ¬ (gbmForecast (fun _ => 0) gbmSeries 2 1 6).forecast_values.length = 6 :=
  ⟨rfl, rfl, by decide⟩

end SalesForecast
